import Mathlib

/-!
Shallow embedding of the invoice settlement and numbering logic of
`leasing/models/land_use_agreement.py` (class `LandUseAgreementInvoice`
and its row/payment child models), together with a model of the
sequence allocator it calls.

Monetary amounts are Python `Decimal` values with exact arithmetic; the
only operations used are addition, subtraction, `max` and comparisons,
all of which are exact on `Rat`, so amounts are embedded as `Rat`.
-/

namespace MVJ

/-- Modelled from the spec: `leasing.enums.InvoiceState` is not under
`src/`; the spec lists the lifecycle states OPEN, PAID, REFUNDED. -/
inductive InvoiceState where
  | OPEN
  | PAID
  | REFUNDED
deriving DecidableEq

/-- Modelled from the spec: `leasing.enums.InvoiceType` is not under
`src/`; the spec lists the monetary types CHARGE and CREDIT_NOTE. -/
inductive InvoiceType where
  | CHARGE
  | CREDIT_NOTE
deriving DecidableEq

/-- The four fields of `LandUseAgreementInvoiceRow` that
`calculate_increase_with_360_day_calendar` reads (`sign_date`,
`plan_lawfulness_date`, `increase_percentage`, `compensation_amount`).
Nullable dates are embedded as `Option Int` (day ordinals). -/
structure RowData where
  sign_date : Option Int
  plan_lawfulness_date : Option Int
  increase_percentage : Rat
  compensation_amount : Rat
deriving DecidableEq

/-- `LandUseAgreementInvoiceRow`: the `amount` field, the static data the
amount is recomputed from, and the soft-delete flag of
`TimeStampedSafeDeleteModel` (the default manager used by `.all()` and
`.aggregate` on a row queryset excludes soft-deleted rows). -/
structure InvoiceRow where
  amount : Rat
  data : RowData
  deleted : Bool
deriving DecidableEq

/-- `LandUseAgreementInvoicePayment`: the `paid_amount` field and the
soft-delete flag. -/
structure Payment where
  paid_amount : Rat
  deleted : Bool
deriving DecidableEq

/-- The fields of a credit invoice (an invoice whose `credited_invoice`
foreign key points at the invoice being settled) that `update_amounts`
reads: its rows, plus its own state, type and soft-delete flag. -/
structure CreditInvoice where
  rows : List InvoiceRow
  state : InvoiceState
  type : InvoiceType
  deleted : Bool
deriving DecidableEq

/-- `LandUseAgreementInvoice`: the fields read or written by
`generate_number` and `update_amounts`, with its related collections
(`rows`, `payments`) and the set of credit invoices referencing it
(`credit_invoices`) materialized as lists. `number` is a nullable
positive-integer field, embedded as `Option Nat`. -/
@[ext]
structure Invoice where
  billed_amount : Rat
  total_amount : Rat
  outstanding_amount : Rat
  state : InvoiceState
  type : InvoiceType
  number : Option Nat
  rows : List InvoiceRow
  payments : List Payment
  credit_invoices : List CreditInvoice
deriving DecidableEq

/-- The rows visible through the safe-delete default manager
(`rows.all()` / `rows.aggregate`): soft-deleted rows are excluded. -/
def liveRows (rs : List InvoiceRow) : List InvoiceRow :=
  rs.filter (fun r => !r.deleted)

/-- `row.update_amount()`: recomputes `amount` with
`calculate_increase_with_360_day_calendar(sign_date,
plan_lawfulness_date, increase_percentage, compensation_amount)`.
That helper lives in `leasing/utils.py`, which is not under `src/`; it
is a pure function of the four static fields, so it is passed here as
the parameter `calcAmount`. -/
def InvoiceRow.update_amount (calcAmount : RowData → Rat) (r : InvoiceRow) : InvoiceRow :=
  { r with amount := calcAmount r.data }

/-- `self.rows.aggregate(sum=Sum("amount"))["sum"]` with the
`if not rows_sum: rows_sum = Decimal(0)` guard: the sum of the live
rows' amounts (`None` on an empty queryset and `Decimal(0)` both
become zero). -/
def rowsSum (rs : List InvoiceRow) : Rat :=
  ((liveRows rs).map (fun r => r.amount)).sum

/-- `self.payments.aggregate(sum=Sum("paid_amount"))["sum"]` with its
`None`/zero guard: the sum of the live payments' `paid_amount`. -/
def paymentsTotal (ps : List Payment) : Rat :=
  ((ps.filter (fun p => !p.deleted)).map (fun p => p.paid_amount)).sum

/-- The hand-tallied credit total of `update_amounts`:
`for credit_inv in self.credit_invoices.all(): for row in
credit_inv.rows.all(): total_credited_amount += row.amount`.
Both `.all()` calls go through the safe-delete default manager, so
soft-deleted credit invoices and soft-deleted rows are excluded — the
source's comment explains the iteration replaces a join aggregate
precisely because the aggregate would include deleted rows. -/
def totalCreditedAmount (cs : List CreditInvoice) : Rat :=
  ((cs.filter (fun c => !c.deleted)).map (fun c => rowsSum c.rows)).sum

/-- The credit total as the spec's words describe it for comparison:
every referencing credit invoice's rows summed in full, soft-deleted
rows (and soft-deleted credit invoices) included. -/
def totalCreditedAmountFull (cs : List CreditInvoice) : Rat :=
  (cs.map (fun c => (c.rows.map (fun r => r.amount)).sum)).sum

/-- `LandUseAgreementInvoice.update_amounts` (lines 745-779):
1. recompute each live row's amount (`row.update_amount()`);
2. `billed_amount = total_amount = rows_sum`;
3. `payments_total`, `total_credited_amount` as above;
4. `outstanding_amount = max(Decimal(0), billed - payments_total -
   total_credited_amount)`;
5. if `total_credited_amount != 0` and
   `total_credited_amount.compare(billed_amount) != Decimal(-1)`
   (that is, credited ≥ billed) the state becomes REFUNDED, else if the
   type is CHARGE and `outstanding_amount == 0` it becomes PAID, else
   it is left as it was. -/
def Invoice.update_amounts (calcAmount : RowData → Rat) (inv : Invoice) : Invoice :=
  let rows' := inv.rows.map (fun r => if r.deleted then r else r.update_amount calcAmount)
  let rs := rowsSum rows'
  let pt := paymentsTotal inv.payments
  let tca := totalCreditedAmount inv.credit_invoices
  let outstanding := max 0 (rs - pt - tca)
  let st :=
    if tca ≠ 0 ∧ rs ≤ tca then InvoiceState.REFUNDED
    else if inv.type = InvoiceType.CHARGE ∧ outstanding = 0 then InvoiceState.PAID
    else inv.state
  { inv with
      rows := rows'
      billed_amount := rs
      total_amount := rs
      outstanding_amount := outstanding
      state := st }

/-- Modelled from the spec: `get_next_value` comes from the external
`sequences` (django-sequences) package, not under `src/`. Per the
spec, a named counter holds the current value; `initial_value` is used
only if the sequence has never been initialized, and each subsequent
call returns the next larger value, the commit of the transaction
being the point of value assignment. This structure is the counter
backing one fixed sequence name (`generate_number` only ever uses
`"invoice_numbers"`). -/
structure SequenceStore where
  value : Option Nat
deriving DecidableEq

/-- Modelled from the spec: one serialized allocate-and-commit step of
the sequence allocator. Returns the initial value on first use of the
sequence, otherwise the successor of the stored value, and commits the
returned value as the new stored value. -/
def get_next_value (initial : Nat) (s : SequenceStore) : Nat × SequenceStore :=
  match s.value with
  | none => (initial, ⟨some initial⟩)
  | some v => (v + 1, ⟨some (v + 1)⟩)

/-- `LandUseAgreementInvoice.generate_number` (lines 735-743):
`if self.number: return self.number` — a Python truthiness test, so
both a missing number (`None`) and a zero number fall through to the
allocation branch — otherwise allocate
`get_next_value("invoice_numbers", initial_value=1000000)`, store it
on the invoice, and return it. The result is the returned number, the
(possibly updated) invoice, and the (possibly updated) counter. -/
def Invoice.generate_number (inv : Invoice) (s : SequenceStore) :
    Nat × Invoice × SequenceStore :=
  match inv.number with
  | some n =>
    if n ≠ 0 then (n, inv, s)
    else
      let (v, s') := get_next_value 1000000 s
      (v, { inv with number := some v }, s')
  | none =>
    let (v, s') := get_next_value 1000000 s
    (v, { inv with number := some v }, s')

/-- The trace of values produced by `n` successive serialized calls to
the allocator starting from store `s`. -/
def allocTrace (initial : Nat) : Nat → SequenceStore → List Nat
  | 0, _ => []
  | n + 1, s =>
    let p := get_next_value initial s
    p.1 :: allocTrace initial n p.2

/-! ## Characterization lemmas for `update_amounts` -/

/-- The billed amount written by `update_amounts` is the live-row sum of
the updated rows. -/
theorem update_amounts_billed_eq (calcAmount : RowData → Rat) (inv : Invoice) :
    (inv.update_amounts calcAmount).billed_amount =
      rowsSum (inv.update_amounts calcAmount).rows := rfl

/-- `update_amounts` writes the same value to `billed_amount` and
`total_amount`. -/
theorem update_amounts_total_eq (calcAmount : RowData → Rat) (inv : Invoice) :
    (inv.update_amounts calcAmount).total_amount =
      (inv.update_amounts calcAmount).billed_amount := rfl

/-- The outstanding amount written by `update_amounts` is the clamped
difference of the freshly written billed amount, the payment total and
the credited total. -/
theorem update_amounts_outstanding_eq (calcAmount : RowData → Rat) (inv : Invoice) :
    (inv.update_amounts calcAmount).outstanding_amount =
      max 0 ((inv.update_amounts calcAmount).billed_amount
        - paymentsTotal inv.payments - totalCreditedAmount inv.credit_invoices) := rfl

/-- The state written by `update_amounts`, as the two-branch conditional
of the source. -/
theorem update_amounts_state_eq (calcAmount : RowData → Rat) (inv : Invoice) :
    (inv.update_amounts calcAmount).state =
      if totalCreditedAmount inv.credit_invoices ≠ 0 ∧
          (inv.update_amounts calcAmount).billed_amount
            ≤ totalCreditedAmount inv.credit_invoices
      then InvoiceState.REFUNDED
      else if inv.type = InvoiceType.CHARGE ∧
          (inv.update_amounts calcAmount).outstanding_amount = 0
      then InvoiceState.PAID
      else inv.state := rfl

/-- `update_amounts` rewrites each live row's amount and leaves the
payments, credit links, type and number untouched. -/
theorem update_amounts_unchanged_fields (calcAmount : RowData → Rat) (inv : Invoice) :
    (inv.update_amounts calcAmount).rows =
      inv.rows.map (fun r => if r.deleted then r else r.update_amount calcAmount) ∧
    (inv.update_amounts calcAmount).payments = inv.payments ∧
    (inv.update_amounts calcAmount).credit_invoices = inv.credit_invoices ∧
    (inv.update_amounts calcAmount).type = inv.type ∧
    (inv.update_amounts calcAmount).number = inv.number := ⟨rfl, rfl, rfl, rfl, rfl⟩

/-! ## Claims -/

/-- C1: after `update_amounts`, `outstanding_amount` equals
`max(0, billed_amount − payments_total − credited_total)`, where the
payment total is the sum of `paid_amount` over the invoice's payments
(zero if none) and the credited total is the sum of the row amounts of
the invoices referencing it as `credited_invoice`; in particular the
outstanding amount is never negative. -/
theorem C1_outstanding_is_clamped_difference (calcAmount : RowData → Rat) (inv : Invoice) :
    (inv.update_amounts calcAmount).outstanding_amount =
      max 0 ((inv.update_amounts calcAmount).billed_amount
        - paymentsTotal inv.payments - totalCreditedAmount inv.credit_invoices) ∧
    0 ≤ (inv.update_amounts calcAmount).outstanding_amount := by
  refine ⟨rfl, ?_⟩
  rw [update_amounts_outstanding_eq]
  exact le_max_left 0 _

/-- C5: after `update_amounts`, `billed_amount` equals `total_amount`
and both equal the sum of the invoice's row amounts, and that sum is
zero when the invoice has no rows. -/
theorem C5_billed_equals_total_equals_row_sum (calcAmount : RowData → Rat) (inv : Invoice) :
    (inv.update_amounts calcAmount).billed_amount =
      (inv.update_amounts calcAmount).total_amount ∧
    (inv.update_amounts calcAmount).billed_amount =
      rowsSum (inv.update_amounts calcAmount).rows ∧
    (inv.rows = [] → (inv.update_amounts calcAmount).billed_amount = 0) := by
  refine ⟨rfl, rfl, fun h => ?_⟩
  rw [update_amounts_billed_eq, (update_amounts_unchanged_fields calcAmount inv).1, h]
  rfl

/-- C5 witness: an invoice with no rows settles to a zero billed amount. -/
theorem C5_billed_equals_total_equals_row_sum_witness :
    (Invoice.update_amounts (fun d => d.compensation_amount)
      { billed_amount := 7, total_amount := 7, outstanding_amount := 7,
        state := InvoiceState.OPEN, type := InvoiceType.CHARGE, number := none,
        rows := [], payments := [], credit_invoices := [] }).billed_amount = 0 :=
  (C5_billed_equals_total_equals_row_sum (fun d => d.compensation_amount)
    { billed_amount := 7, total_amount := 7, outstanding_amount := 7,
      state := InvoiceState.OPEN, type := InvoiceType.CHARGE, number := none,
      rows := [], payments := [], credit_invoices := [] }).2.2 rfl

/-- C2: the state transition of `update_amounts` in its fixed priority
order: a nonzero credited total that reaches the billed amount forces
REFUNDED no matter what the payments are; otherwise a CHARGE invoice
with zero outstanding becomes PAID; otherwise the state is untouched.
The REFUNDED branch places no condition on the payments, so an invoice
that is both fully paid and fully credited ends REFUNDED. -/
theorem C2_state_transition_priority (calcAmount : RowData → Rat) (inv : Invoice) :
    (totalCreditedAmount inv.credit_invoices ≠ 0 →
      (inv.update_amounts calcAmount).billed_amount
          ≤ totalCreditedAmount inv.credit_invoices →
      (inv.update_amounts calcAmount).state = InvoiceState.REFUNDED) ∧
    (¬ (totalCreditedAmount inv.credit_invoices ≠ 0 ∧
        (inv.update_amounts calcAmount).billed_amount
          ≤ totalCreditedAmount inv.credit_invoices) →
      inv.type = InvoiceType.CHARGE →
      (inv.update_amounts calcAmount).outstanding_amount = 0 →
      (inv.update_amounts calcAmount).state = InvoiceState.PAID) ∧
    (¬ (totalCreditedAmount inv.credit_invoices ≠ 0 ∧
        (inv.update_amounts calcAmount).billed_amount
          ≤ totalCreditedAmount inv.credit_invoices) →
      ¬ (inv.type = InvoiceType.CHARGE ∧
        (inv.update_amounts calcAmount).outstanding_amount = 0) →
      (inv.update_amounts calcAmount).state = inv.state) ∧
    (paymentsTotal inv.payments = (inv.update_amounts calcAmount).billed_amount →
      totalCreditedAmount inv.credit_invoices
          = (inv.update_amounts calcAmount).billed_amount →
      totalCreditedAmount inv.credit_invoices ≠ 0 →
      (inv.update_amounts calcAmount).state = InvoiceState.REFUNDED) := by
  refine ⟨?_, ?_, ?_, ?_⟩
  · intro h1 h2
    rw [update_amounts_state_eq, if_pos ⟨h1, h2⟩]
  · intro hn hc ho
    rw [update_amounts_state_eq, if_neg hn, if_pos ⟨hc, ho⟩]
  · intro hn hn2
    rw [update_amounts_state_eq, if_neg hn, if_neg hn2]
  · intro _ heq hne
    rw [update_amounts_state_eq, if_pos ⟨hne, le_of_eq heq.symm⟩]

/-- An invoice billed 800, fully paid (one 800 payment) and fully
credited (one credit invoice whose rows sum to 800). -/
def fullyPaidFullyCreditedExample : Invoice :=
  { billed_amount := 0, total_amount := 0, outstanding_amount := 0,
    state := InvoiceState.OPEN, type := InvoiceType.CHARGE, number := none,
    rows := [{ amount := 0, data := ⟨none, none, 0, 800⟩, deleted := false }],
    payments := [{ paid_amount := 800, deleted := false }],
    credit_invoices :=
      [{ rows := [{ amount := 800, data := ⟨none, none, 0, 800⟩, deleted := false }],
         state := InvoiceState.OPEN, type := InvoiceType.CREDIT_NOTE, deleted := false }] }

/-- C2 witness: the invoice that is both fully paid and fully credited
ends in state REFUNDED. -/
theorem C2_state_transition_priority_witness :
    (Invoice.update_amounts (fun d => d.compensation_amount)
      fullyPaidFullyCreditedExample).state = InvoiceState.REFUNDED :=
  (C2_state_transition_priority (fun d => d.compensation_amount)
      fullyPaidFullyCreditedExample).2.2.2
    (by simp [paymentsTotal, fullyPaidFullyCreditedExample, update_amounts_billed_eq,
          rowsSum, liveRows, Invoice.update_amounts, InvoiceRow.update_amount])
    (by simp [totalCreditedAmount, fullyPaidFullyCreditedExample, rowsSum, liveRows,
          Invoice.update_amounts, InvoiceRow.update_amount])
    (by simp [totalCreditedAmount, fullyPaidFullyCreditedExample, rowsSum, liveRows])

/-- C6: `update_amounts` is idempotent: a second call on the result of
a first call, with the payments and credit links unchanged in between
(they are fields of the invoice value), returns the same invoice. -/
theorem C6_update_amounts_idempotent (calcAmount : RowData → Rat) (inv : Invoice) :
    (inv.update_amounts calcAmount).update_amounts calcAmount =
      inv.update_amounts calcAmount := by
  have hrows : ((inv.rows.map
        (fun r => if r.deleted then r else r.update_amount calcAmount)).map
        (fun r => if r.deleted then r else r.update_amount calcAmount)) =
      inv.rows.map (fun r => if r.deleted then r else r.update_amount calcAmount) := by
    rw [List.map_map]
    apply List.map_congr_left
    intro r _
    by_cases h : r.deleted <;> simp [Function.comp_def, h, InvoiceRow.update_amount]
  ext1
  case billed_amount => simp only [Invoice.update_amounts, hrows]
  case total_amount => simp only [Invoice.update_amounts, hrows]
  case outstanding_amount => simp only [Invoice.update_amounts, hrows]
  case state =>
    simp only [Invoice.update_amounts, hrows]
    split_ifs <;> rfl
  case type => rfl
  case number => rfl
  case rows => simp only [Invoice.update_amounts, hrows]
  case payments => rfl
  case credit_invoices => rfl

/-- C7: `update_amounts` never transitions an invoice to OPEN: the state
after the call is REFUNDED, PAID, or the state the invoice already
had. -/
theorem C7_no_transition_to_open (calcAmount : RowData → Rat) (inv : Invoice) :
    (inv.update_amounts calcAmount).state = InvoiceState.REFUNDED ∨
    (inv.update_amounts calcAmount).state = InvoiceState.PAID ∨
    (inv.update_amounts calcAmount).state = inv.state := by
  rw [update_amounts_state_eq]
  split_ifs with h1 h2
  · exact Or.inl rfl
  · exact Or.inr (Or.inl rfl)
  · exact Or.inr (Or.inr rfl)

/-- A CHARGE invoice in state OPEN with no rows, no payments and no
credit invoices. -/
def emptyChargeExample : Invoice :=
  { billed_amount := 0, total_amount := 0, outstanding_amount := 0,
    state := InvoiceState.OPEN, type := InvoiceType.CHARGE, number := none,
    rows := [], payments := [], credit_invoices := [] }

/-- C3 counterexample: on a CHARGE invoice with no rows, no payments and
no credit invoices, `update_amounts` does change the state — the
PAID branch fires because the outstanding amount is zero and the type
is CHARGE — so the state is not left unchanged regardless of invoice
type. -/
theorem C3_counterexample_empty_charge_becomes_paid :
    emptyChargeExample.rows = [] ∧ emptyChargeExample.payments = [] ∧
    emptyChargeExample.credit_invoices = [] ∧
    emptyChargeExample.state = InvoiceState.OPEN ∧
    (Invoice.update_amounts (fun d => d.compensation_amount)
      emptyChargeExample).state = InvoiceState.PAID := by
  refine ⟨rfl, rfl, rfl, rfl, ?_⟩
  simp [emptyChargeExample, Invoice.update_amounts, rowsSum, paymentsTotal,
    totalCreditedAmount, liveRows]

/-- C3 (amended): an invoice with no rows, no payments and no credit
invoices settles to a zero billed amount and a zero outstanding
amount; the state is left unchanged unless the invoice type is
CHARGE, in which case the zero outstanding amount drives it to
PAID. -/
theorem C3_empty_invoice_settles_to_zero (calcAmount : RowData → Rat) (inv : Invoice)
    (hr : inv.rows = []) (hp : inv.payments = []) (hc : inv.credit_invoices = []) :
    (inv.update_amounts calcAmount).billed_amount = 0 ∧
    (inv.update_amounts calcAmount).outstanding_amount = 0 ∧
    (inv.update_amounts calcAmount).state =
      (if inv.type = InvoiceType.CHARGE then InvoiceState.PAID else inv.state) := by
  have hb : (inv.update_amounts calcAmount).billed_amount = 0 := by
    rw [update_amounts_billed_eq, (update_amounts_unchanged_fields calcAmount inv).1, hr]
    rfl
  have ho : (inv.update_amounts calcAmount).outstanding_amount = 0 := by
    rw [update_amounts_outstanding_eq, hb, hp, hc]
    simp [paymentsTotal, totalCreditedAmount]
  refine ⟨hb, ho, ?_⟩
  rw [update_amounts_state_eq, hc, ho]
  simp [totalCreditedAmount]

/-- C3 witness: a CREDIT_NOTE invoice with no rows, no payments and no
credit invoices keeps its OPEN state and settles to zero. -/
theorem C3_empty_invoice_settles_to_zero_witness :
    (Invoice.update_amounts (fun d => d.compensation_amount)
      { emptyChargeExample with type := InvoiceType.CREDIT_NOTE }).billed_amount = 0 ∧
    (Invoice.update_amounts (fun d => d.compensation_amount)
      { emptyChargeExample with type := InvoiceType.CREDIT_NOTE }).outstanding_amount = 0 ∧
    (Invoice.update_amounts (fun d => d.compensation_amount)
      { emptyChargeExample with type := InvoiceType.CREDIT_NOTE }).state
        = InvoiceState.OPEN := by
  have h := C3_empty_invoice_settles_to_zero (fun d => d.compensation_amount)
    { emptyChargeExample with type := InvoiceType.CREDIT_NOTE } rfl rfl rfl
  exact ⟨h.1, h.2.1, by rw [h.2.2]; rfl⟩

/-- An invoice billed 1000 whose single linked credit invoice has one
soft-deleted row of amount 1000 and no live rows. -/
def softDeletedCreditRowExample : Invoice :=
  { billed_amount := 0, total_amount := 0, outstanding_amount := 0,
    state := InvoiceState.OPEN, type := InvoiceType.CHARGE, number := none,
    rows := [{ amount := 0, data := ⟨none, none, 0, 1000⟩, deleted := false }],
    payments := [],
    credit_invoices :=
      [{ rows := [{ amount := 1000, data := ⟨none, none, 0, 1000⟩, deleted := true }],
         state := InvoiceState.OPEN, type := InvoiceType.CREDIT_NOTE, deleted := false }] }

/-- C4 counterexample: on an invoice whose linked credit invoice has a
single soft-deleted row of amount 1000, the full row total is 1000
but the credit total `update_amounts` actually uses is 0: the
outstanding amount stays at the billed 1000 and the state stays OPEN,
where the claim's full sum would have forced outstanding 0 and
REFUNDED. Soft-deleted rows are excluded, not included. -/
theorem C4_counterexample_soft_deleted_row_excluded :
    totalCreditedAmountFull softDeletedCreditRowExample.credit_invoices = 1000 ∧
    totalCreditedAmount softDeletedCreditRowExample.credit_invoices = 0 ∧
    (Invoice.update_amounts (fun d => d.compensation_amount)
      softDeletedCreditRowExample).outstanding_amount = 1000 ∧
    (Invoice.update_amounts (fun d => d.compensation_amount)
      softDeletedCreditRowExample).state = InvoiceState.OPEN := by
  refine ⟨?_, ?_, ?_, ?_⟩ <;>
    simp [softDeletedCreditRowExample, totalCreditedAmountFull, totalCreditedAmount,
      Invoice.update_amounts, rowsSum, paymentsTotal, liveRows, InvoiceRow.update_amount]

/-- C4 (amended): the credit total is delete-aware but state-blind: it
ignores every credit invoice's own lifecycle state, and it equals the
full row total taken over the non-soft-deleted credit invoices
restricted to their non-soft-deleted rows. -/
theorem C4_credited_total_state_blind_delete_aware (cs : List CreditInvoice)
    (f : CreditInvoice → InvoiceState) :
    totalCreditedAmount (cs.map (fun c => { c with state := f c })) =
      totalCreditedAmount cs ∧
    totalCreditedAmount cs =
      totalCreditedAmountFull
        ((cs.filter (fun c => !c.deleted)).map (fun c => { c with rows := liveRows c.rows })) := by
  constructor
  · induction cs with
    | nil => rfl
    | cons c cs ih =>
      by_cases h : c.deleted <;>
        simp [totalCreditedAmount, List.filter_cons, h] at ih ⊢ <;> exact ih
  · simp [totalCreditedAmount, totalCreditedAmountFull, List.map_map, Function.comp_def,
      rowsSum]

/-- An invoice billed 100 carrying a single negative payment of -50. -/
def negativePaymentExample : Invoice :=
  { billed_amount := 0, total_amount := 0, outstanding_amount := 0,
    state := InvoiceState.OPEN, type := InvoiceType.CHARGE, number := none,
    rows := [{ amount := 0, data := ⟨none, none, 0, 100⟩, deleted := false }],
    payments := [{ paid_amount := -50, deleted := false }],
    credit_invoices := [] }

/-- C8 counterexample: an invoice with a negative payment amount is not
rejected: `update_amounts` completes normally, the negative value
flows through the arithmetic (100 − (−50) = 150 outstanding), and no
validation failure of any kind occurs — the routine has no failure
path at all. -/
theorem C8_counterexample_negative_amount_processed :
    negativePaymentExample.payments.map (fun p => p.paid_amount) = [-50] ∧
    (Invoice.update_amounts (fun d => d.compensation_amount)
      negativePaymentExample).billed_amount = 100 ∧
    (Invoice.update_amounts (fun d => d.compensation_amount)
      negativePaymentExample).outstanding_amount = 150 ∧
    (Invoice.update_amounts (fun d => d.compensation_amount)
      negativePaymentExample).state = InvoiceState.OPEN := by
  refine ⟨rfl, ?_, ?_, ?_⟩ <;>
    simp [negativePaymentExample, Invoice.update_amounts, rowsSum, paymentsTotal,
      totalCreditedAmount, liveRows, InvoiceRow.update_amount] <;>
    norm_num

/-- C8 (amended): neither routine validates its inputs. A live negative
payment is consumed by the payment sum exactly like any other value
(it strictly lowers the total below the remaining payments' total),
and `update_amounts` still completes with the usual clamped settlement
formula — there is no validation-kind failure, before or after store
interaction. -/
theorem C8_negative_amounts_flow_through_arithmetic (calcAmount : RowData → Rat)
    (inv : Invoice) (p : Payment) (rest : List Payment)
    (hp : inv.payments = p :: rest) (hlive : p.deleted = false)
    (hneg : p.paid_amount < 0) :
    paymentsTotal inv.payments < paymentsTotal rest ∧
    (inv.update_amounts calcAmount).outstanding_amount =
      max 0 ((inv.update_amounts calcAmount).billed_amount
        - paymentsTotal inv.payments - totalCreditedAmount inv.credit_invoices) ∧
    0 ≤ (inv.update_amounts calcAmount).outstanding_amount := by
  refine ⟨?_, rfl, ?_⟩
  · rw [hp]
    simp only [paymentsTotal, List.filter_cons, hlive]
    simp only [Bool.not_false, if_pos, List.map_cons, List.sum_cons]
    linarith
  · rw [update_amounts_outstanding_eq]
    exact le_max_left 0 _

/-- C8 witness: the negative-payment invoice instantiates the amended
claim. -/
theorem C8_negative_amounts_flow_through_arithmetic_witness :
    paymentsTotal negativePaymentExample.payments < paymentsTotal [] ∧
    (Invoice.update_amounts (fun d => d.compensation_amount)
        negativePaymentExample).outstanding_amount =
      max 0 ((Invoice.update_amounts (fun d => d.compensation_amount)
          negativePaymentExample).billed_amount
        - paymentsTotal negativePaymentExample.payments
        - totalCreditedAmount negativePaymentExample.credit_invoices) ∧
    0 ≤ (Invoice.update_amounts (fun d => d.compensation_amount)
        negativePaymentExample).outstanding_amount :=
  C8_negative_amounts_flow_through_arithmetic (fun d => d.compensation_amount)
    negativePaymentExample { paid_amount := -50, deleted := false } [] rfl rfl
    (by norm_num)

/-- The values handed out from an already-initialized counter holding
`v` are `v+1, v+2, ...`. -/
theorem allocTrace_from_initialized (initial : Nat) :
    ∀ (n v : Nat), allocTrace initial n ⟨some v⟩ =
      (List.range n).map (fun i => v + 1 + i) := by
  intro n
  induction n with
  | zero => intro v; rfl
  | succ n ih =>
    intro v
    simp only [allocTrace, get_next_value]
    rw [ih (v + 1), List.range_succ_eq_map, List.map_cons, List.map_map]
    refine congrArg₂ _ rfl ?_
    apply List.map_congr_left
    intro i _
    simp only [Function.comp_apply]
    omega

/-- The values handed out from a fresh counter are
`initial, initial+1, ...`. -/
theorem allocTrace_from_fresh (initial n : Nat) :
    allocTrace initial (n + 1) ⟨none⟩ =
      initial :: (List.range n).map (fun i => initial + 1 + i) := by
  simp only [allocTrace, get_next_value]
  rw [allocTrace_from_initialized]

/-- C9: in the serialized allocate-and-commit model, `n` successive
calls against a fresh counter return a strictly increasing sequence of
integers in commit order, with no duplicates, every value at least the
initial value — so no two callers ever receive the same value. -/
theorem C9_sequence_values_strictly_increasing_distinct (initial n : Nat) :
    List.Pairwise (· < ·) (allocTrace initial n (⟨none⟩ : SequenceStore)) ∧
    (allocTrace initial n (⟨none⟩ : SequenceStore)).Nodup ∧
    ∀ v ∈ allocTrace initial n (⟨none⟩ : SequenceStore), initial ≤ v := by
  have hpair : List.Pairwise (· < ·) (allocTrace initial n (⟨none⟩ : SequenceStore)) := by
    cases n with
    | zero => simp [allocTrace]
    | succ n =>
      rw [allocTrace_from_fresh]
      refine List.Pairwise.cons ?_ ?_
      · intro b hb
        rcases List.mem_map.mp hb with ⟨i, _, rfl⟩
        omega
      · rw [List.pairwise_map]
        exact (List.pairwise_lt_range n).imp (fun h => by omega)
  refine ⟨hpair, hpair.imp (fun h => Nat.ne_of_lt h), ?_⟩
  intro v hv
  cases n with
  | zero => simp [allocTrace] at hv
  | succ n =>
    rw [allocTrace_from_fresh] at hv
    rcases List.mem_cons.mp hv with h | h
    · omega
    · rcases List.mem_map.mp h with ⟨i, _, rfl⟩
      omega

/-- C9 witness: three allocations from a fresh counter initialized at
1000000 are pairwise distinct and at least the initial value. -/
theorem C9_sequence_values_strictly_increasing_distinct_witness :
    (allocTrace 1000000 3 (⟨none⟩ : SequenceStore)).Nodup ∧ (1000000 : Nat) ≤ 1000002 :=
  ⟨(C9_sequence_values_strictly_increasing_distinct 1000000 3).2.1,
   (C9_sequence_values_strictly_increasing_distinct 1000000 3).2.2 1000002 (by decide)⟩

/-- The invoice of `emptyChargeExample` carrying the number zero. -/
def zeroNumberExample : Invoice :=
  { emptyChargeExample with number := some 0 }

/-- C10 counterexample: an invoice whose stored number is 0 already has
a number, yet `generate_number` does not return it: the Python
truthiness test treats 0 like a missing number, so the allocator is
invoked — the call returns the fresh value 1000000 and advances the
counter. -/
theorem C10_counterexample_zero_number_reallocated :
    zeroNumberExample.number = some 0 ∧
    (zeroNumberExample.generate_number (⟨none⟩ : SequenceStore)).1 = 1000000 ∧
    (zeroNumberExample.generate_number (⟨none⟩ : SequenceStore)).2.2
      ≠ (⟨none⟩ : SequenceStore) := by
  refine ⟨rfl, rfl, ?_⟩
  decide

/-- C10 (amended): `generate_number` is idempotent at the invoice level
for nonzero numbers: an invoice holding a nonzero number gets it back
with the invoice and the counter untouched; and for every invoice two
successive calls return the same number, leave the invoice as the
first call left it, and do not advance the counter a second time, so
at most one sequence value is consumed. -/
theorem C10_generate_number_idempotent :
    (∀ (inv : Invoice) (s : SequenceStore) (n : Nat),
      inv.number = some n → n ≠ 0 → inv.generate_number s = (n, inv, s)) ∧
    (∀ (inv : Invoice) (s : SequenceStore),
      ((inv.generate_number s).2.1.generate_number (inv.generate_number s).2.2).1 =
        (inv.generate_number s).1 ∧
      ((inv.generate_number s).2.1.generate_number (inv.generate_number s).2.2).2.1 =
        (inv.generate_number s).2.1 ∧
      ((inv.generate_number s).2.1.generate_number (inv.generate_number s).2.2).2.2 =
        (inv.generate_number s).2.2) := by
  constructor
  · intro inv s n h hn
    simp [Invoice.generate_number, h, hn]
  · intro inv s
    match hnum : inv.number with
    | some n =>
      by_cases hn : n = 0
      · subst hn
        cases hs : s.value <;>
          simp [Invoice.generate_number, get_next_value, hnum, hs]
      · simp [Invoice.generate_number, hnum, hn]
    | none =>
      cases hs : s.value <;>
        simp [Invoice.generate_number, get_next_value, hnum, hs]

/-- C10 witness: an invoice holding the nonzero number 5 gets exactly
that number back, with the counter untouched. -/
theorem C10_generate_number_idempotent_witness :
    Invoice.generate_number { emptyChargeExample with number := some 5 }
        (⟨some 1000000⟩ : SequenceStore) =
      (5, { emptyChargeExample with number := some 5 },
        (⟨some 1000000⟩ : SequenceStore)) :=
  C10_generate_number_idempotent.1 { emptyChargeExample with number := some 5 }
    (⟨some 1000000⟩ : SequenceStore) 5 rfl (by decide)

end MVJ
